import Mathlib

/-!
Shallow embedding of the entity-update logic of `sensor.py` from the
`huawei_solar` Home Assistant integration.

Python dictionaries delivered by the update coordinator are modelled as
association lists from register-name strings to dynamically typed values
(`Val`).  An entity's `_handle_coordinator_update` method becomes a pure
function from the coordinator data and the entity's previous published
state to its next published state; an uncaught Python exception
(KeyError, IndexError, TypeError, AssertionError) is modelled as `none`
in an `Option`-valued result.
-/

set_option maxRecDepth 4096

namespace HuaweiSolar

/-- `huawei_solar.register_values.Alarm`: one alarm record as decoded by the
transport. The source formats it with `alarm.level`, `alarm.id`, `alarm.name`. -/
structure Alarm where
  level : Int
  id : Int
  name : String
  deriving DecidableEq, Repr

/-- `huawei_solar.registers.ChargeFlag` (only the two flags the source compares). -/
inductive ChargeFlag where
  | CHARGE
  | DISCHARGE
  deriving DecidableEq, Repr

/-- A day-of-week bitmask: `days_effective` is a 7-tuple of booleans in the
source, indexed 0..6 with Sunday at index 0. -/
abbrev DaysEffective : Type := Fin 7 → Bool

/-- `huawei_solar.registers.LG_RESU_TimeOfUsePeriod`. `electricity_price` is a
decimal number in the source; it is modelled by its rendered decimal string,
since float formatting is owned by the transport and never inspected here. -/
structure LG_RESU_TimeOfUsePeriod where
  start_time : Nat
  end_time : Nat
  electricity_price : String
  deriving DecidableEq, Repr

/-- `huawei_solar.registers.HUAWEI_LUNA2000_TimeOfUsePeriod`. -/
structure HUAWEI_LUNA2000_TimeOfUsePeriod where
  start_time : Nat
  end_time : Nat
  charge_flag : ChargeFlag
  days_effective : DaysEffective
  deriving DecidableEq

/-- `huawei_solar.registers.PeakSettingPeriod`. -/
structure PeakSettingPeriod where
  start_time : Nat
  end_time : Nat
  power : Int
  days_effective : DaysEffective
  deriving DecidableEq

/-- `huawei_solar.registers.ChargeDischargePeriod`. -/
structure ChargeDischargePeriod where
  start_time : Nat
  end_time : Nat
  power : Int
  deriving DecidableEq, Repr

/-- `huawei_solar.files.OptimizerRunningStatus` (the source only ever compares
against `OFFLINE`). -/
inductive OptimizerRunningStatus where
  | OFFLINE
  | STANDBY
  | RUNNING
  deriving DecidableEq, Repr

/-- A dynamically typed register value (`RawRegisterValue`): the `.value` field
of the result object the coordinator stores per register name.  Each
constructor corresponds to one of the value shapes the embedded handlers
consume. -/
inductive Val where
  | str (s : String)
  | int (n : Int)
  | strList (xs : List String)
  | alarmList (xs : List Alarm)
  | touLG (xs : List LG_RESU_TimeOfUsePeriod)
  | touHuawei (xs : List HUAWEI_LUNA2000_TimeOfUsePeriod)
  | peakList (xs : List PeakSettingPeriod)
  | cdList (xs : List ChargeDischargePeriod)
  | optStatus (s : OptimizerRunningStatus)
  deriving DecidableEq

/-- Python `str()` restricted to the scalar shapes the handlers format.
Composite shapes are never formatted by the embedded code paths. -/
def Val.pyStr : Val → String
  | .str s => s
  | .int n => toString n
  | _ => ""

/-- Python `==` between a register value and an integer-valued enum member:
true exactly when the value is that integer (a non-integer compares unequal,
it does not raise). -/
def Val.eqInt : Val → Int → Bool
  | .int m, n => m == n
  | _, _ => false

/-- Dictionary lookup `d.get(k)` on the coordinator data, modelled on an
association list. -/
def alookup (k : String) : List (String × Val) → Option Val
  | [] => none
  | (k₂, v) :: rest => if k = k₂ then some v else alookup k rest

/-- Python truthiness of the coordinator data dict: `if self.coordinator.data:`
is false for `None` and for an empty dict, both modelled by `[]`. -/
def dataTruthy (data : List (String × Val)) : Bool :=
  !data.isEmpty

/-- The externally published state of one entity: `_attr_available`,
`_attr_native_value` (Python `None` is `Option.none`) and
`_attr_extra_state_attributes`. -/
structure EntityState where
  available : Bool
  native_value : Option Val
  extra_state_attributes : List (String × Val)
  deriving DecidableEq

/-- The published state an entity starts from before any coordinator update. -/
def initEntityState : EntityState :=
  { available := false, native_value := none, extra_state_attributes := [] }

/-! ### Generic single-dependency sensor (`HuaweiSolarSensorEntity`) -/

/-- The slice of `HuaweiSolarSensorEntityDescription` the update logic uses:
the key and the optional value-conversion function.  A conversion returning
`none` models the function raising (e.g. `IndexError` from `value[2]`). -/
structure HuaweiSolarSensorEntityDescription where
  key : String
  value_conversion_function : Option (Val → Option Val) := none

/-- The per-entity state computed by `HuaweiSolarSensorEntity.__init__`:
the register key is the description key truncated at the first `#`
(`key[0:key.find("#")]`), left unchanged when no `#` occurs. -/
def stripIndexSelector (key : String) : String :=
  String.mk (key.toList.takeWhile (fun c => c ≠ '#'))

/-- The fields of a constructed `HuaweiSolarSensorEntity` that the update
logic reads. Construction is a total function: it performs no validation
of the index selector and cannot fail. -/
structure SensorEntity where
  register_key : String
  value_conversion_function : Option (Val → Option Val)

/-- `HuaweiSolarSensorEntity.__init__` (the parts relevant to updates). -/
def mkSensorEntity (description : HuaweiSolarSensorEntityDescription) : SensorEntity :=
  { register_key := stripIndexSelector description.key
    value_conversion_function := description.value_conversion_function }

/-- Applying the optional conversion function, as in
`if description.value_conversion_function: value = ...(value)`. -/
def applyConversion (conv : Option (Val → Option Val)) (v : Val) : Option Val :=
  match conv with
  | none => some v
  | some f => f v

/-- `HuaweiSolarSensorEntity._handle_coordinator_update`
(src/sensor.py lines 957-972). -/
def sensor_handle_coordinator_update (register_key : String)
    (conv : Option (Val → Option Val)) (data : List (String × Val))
    (prev : EntityState) : Option EntityState :=
  if dataTruthy data ∧ (alookup register_key data).isSome then do
    let v ← alookup register_key data
    let v ← applyConversion conv v
    some { available := true, native_value := some v
           extra_state_attributes := prev.extra_state_attributes }
  else
    some { available := false, native_value := none
           extra_state_attributes := prev.extra_state_attributes }

/-- `lambda value: value[i]` — the index-selector conversion functions used for
the `STATE_2#n` / `STATE_3#n` entries of `INVERTER_SENSOR_DESCRIPTIONS`
(src/sensor.py lines 246-270).  Indexing past the end of the list raises
`IndexError`, modelled as `none`; a non-list value raises `TypeError`. -/
def indexConversion (i : Nat) : Val → Option Val
  | .strList xs => (xs.get? i).map Val.str
  | _ => none

/-! ### Register names and enum values

The register-name strings and the integer values behind the
`register_values` enums live in the external `huawei_solar` library; they
are opaque identifiers to `sensor.py`, which only requires them to be
pairwise distinct. -/

namespace rn

def ALARM_1 : String := "alarm_1"

def ALARM_2 : String := "alarm_2"

def ALARM_3 : String := "alarm_3"

def STORAGE_TIME_OF_USE_CHARGING_AND_DISCHARGING_PERIODS : String :=
  "storage_time_of_use_charging_and_discharging_periods"

def STORAGE_CAPACITY_CONTROL_PERIODS : String := "storage_capacity_control_periods"

def STORAGE_FIXED_CHARGING_AND_DISCHARGING_PERIODS : String :=
  "storage_fixed_charging_and_discharging_periods"

def STORAGE_FORCIBLE_CHARGE_DISCHARGE_SETTING_MODE : String :=
  "storage_forcible_charge_discharge_setting_mode"

def STORAGE_FORCIBLE_CHARGE_DISCHARGE_WRITE : String :=
  "storage_forcible_charge_discharge_write"

def STORAGE_FORCIBLE_CHARGE_POWER : String := "storage_forcible_charge_power"

def STORAGE_FORCIBLE_DISCHARGE_POWER : String := "storage_forcible_discharge_power"

def STORAGE_FORCED_CHARGING_AND_DISCHARGING_PERIOD : String :=
  "storage_forced_charging_and_discharging_period"

def STORAGE_FORCIBLE_CHARGE_DISCHARGE_SOC : String :=
  "storage_forcible_charge_discharge_soc"

end rn

namespace rv

def StorageForcibleChargeDischarge_STOP : Int := 0

def StorageForcibleChargeDischarge_CHARGE : Int := 1

def StorageForcibleChargeDischarge_DISCHARGE : Int := 2

def StorageForcibleChargeDischargeTargetMode_TIME : Int := 0

def StorageForcibleChargeDischargeTargetMode_SOC : Int := 1

end rv

/-! ### Day-mask and time-of-day rendering -/

/-- `_days_effective_to_str` (src/sensor.py lines 1027-1033): iterate
`i = 0..6` and append `str(i+1)` when `days[(i+1) % 7]` is set; Sunday sits
at tuple index 0 but is named day 7. -/
def days_effective_to_str (days : DaysEffective) : String :=
  (List.range 7).foldl
    (fun value i =>
      if days ⟨(i + 1) % 7, Nat.mod_lt _ (by decide)⟩ then value ++ toString (i + 1)
      else value)
    ""

/-- Python `f"{n:02d}"` for a nonnegative value. -/
def pad2 (n : Nat) : String :=
  if n < 10 then "0" ++ toString n else toString n

/-- `_time_int_to_str` (src/sensor.py lines 1036-1037):
`f"{time//60:02d}:{time%60:02d}"`. -/
def time_int_to_str (time : Nat) : String :=
  pad2 (time / 60) ++ ":" ++ pad2 (time % 60)

/-! ### Schedule-period entities -/

/-- `HuaweiSolarTOUPricePeriodsSensorEntity._lg_resu_period_to_text`. -/
def lg_resu_period_to_text (period : LG_RESU_TimeOfUsePeriod) : String :=
  time_int_to_str period.start_time ++ "-" ++ time_int_to_str period.end_time
    ++ "/" ++ period.electricity_price

/-- `HuaweiSolarTOUPricePeriodsSensorEntity._huawei_luna2000_period_to_text`. -/
def huawei_luna2000_period_to_text (period : HUAWEI_LUNA2000_TimeOfUsePeriod) : String :=
  time_int_to_str period.start_time ++ "-" ++ time_int_to_str period.end_time
    ++ "/" ++ days_effective_to_str period.days_effective
    ++ "/" ++ (if period.charge_flag = ChargeFlag.CHARGE then "+" else "-")

/-- `HuaweiSolarCapacityControlPeriodsSensorEntity._period_to_text`. -/
def peak_setting_period_to_text (psp : PeakSettingPeriod) : String :=
  time_int_to_str psp.start_time ++ "-" ++ time_int_to_str psp.end_time
    ++ "/" ++ days_effective_to_str psp.days_effective
    ++ "/" ++ toString psp.power ++ "W"

/-- `HuaweiSolarFixedChargingPeriodsSensorEntity._period_to_text`. -/
def charge_discharge_period_to_text (cdp : ChargeDischargePeriod) : String :=
  time_int_to_str cdp.start_time ++ "-" ++ time_int_to_str cdp.end_time
    ++ "/" ++ toString cdp.power ++ "W"

/-- The dict comprehension
`{f"Period {idx+1}": to_text(period) for idx, period in enumerate(data)}`. -/
def periodAttributes {α : Type} (toText : α → String) (data : List α) :
    List (String × Val) :=
  data.enum.map (fun ip => ("Period " ++ toString (ip.1 + 1), Val.str (toText ip.2)))

/-- `HuaweiSolarTOUPricePeriodsSensorEntity._handle_coordinator_update`
(src/sensor.py lines 1088-1121).  The register value is a list of either
LG-RESU or Huawei-LUNA2000 time-of-use periods; any other shape would be a
transport contract violation (`len()`/`isinstance` misuse), modelled `none`.
Note that the unavailable branch leaves `extra_state_attributes` untouched. -/
def tou_handle_coordinator_update (data : List (String × Val)) (prev : EntityState) :
    Option EntityState :=
  if dataTruthy data
      ∧ (alookup rn.STORAGE_TIME_OF_USE_CHARGING_AND_DISCHARGING_PERIODS data).isSome then do
    let v ← alookup rn.STORAGE_TIME_OF_USE_CHARGING_AND_DISCHARGING_PERIODS data
    match v with
    | .touLG periods =>
        some { available := true, native_value := some (.int periods.length)
               extra_state_attributes :=
                 if periods.length = 0 then []
                 else periodAttributes lg_resu_period_to_text periods }
    | .touHuawei periods =>
        some { available := true, native_value := some (.int periods.length)
               extra_state_attributes :=
                 if periods.length = 0 then []
                 else periodAttributes huawei_luna2000_period_to_text periods }
    | _ => none
  else
    some { available := false, native_value := none
           extra_state_attributes := prev.extra_state_attributes }

/-- `HuaweiSolarCapacityControlPeriodsSensorEntity._handle_coordinator_update`
(src/sensor.py lines 1162-1184).  The unavailable branch calls
`self._attr_extra_state_attributes.clear()`. -/
def capacity_handle_coordinator_update (data : List (String × Val))
    (_prev : EntityState) : Option EntityState :=
  if dataTruthy data ∧ (alookup rn.STORAGE_CAPACITY_CONTROL_PERIODS data).isSome then do
    let v ← alookup rn.STORAGE_CAPACITY_CONTROL_PERIODS data
    match v with
    | .peakList periods =>
        some { available := true, native_value := some (.int periods.length)
               extra_state_attributes :=
                 periodAttributes peak_setting_period_to_text periods }
    | _ => none
  else
    some { available := false, native_value := none, extra_state_attributes := [] }

/-- `HuaweiSolarFixedChargingPeriodsSensorEntity._handle_coordinator_update`
(src/sensor.py lines 1225-1246). -/
def fixed_handle_coordinator_update (data : List (String × Val))
    (_prev : EntityState) : Option EntityState :=
  if dataTruthy data
      ∧ (alookup rn.STORAGE_FIXED_CHARGING_AND_DISCHARGING_PERIODS data).isSome then do
    let v ← alookup rn.STORAGE_FIXED_CHARGING_AND_DISCHARGING_PERIODS data
    match v with
    | .cdList periods =>
        some { available := true, native_value := some (.int periods.length)
               extra_state_attributes :=
                 periodAttributes charge_discharge_period_to_text periods }
    | _ => none
  else
    some { available := false, native_value := none, extra_state_attributes := [] }

/-! ### Alarm aggregator (`HuaweiSolarAlarmSensorEntity`) -/

/-- `HuaweiSolarAlarmSensorEntity.ALARM_REGISTERS`. -/
def ALARM_REGISTERS : List String := [rn.ALARM_1, rn.ALARM_2, rn.ALARM_3]

/-- Extracting the list of alarm records from a register value; any other
shape would make `alarms.extend(...)` raise. -/
def Val.asAlarmList : Val → Option (List Alarm)
  | .alarmList xs => some xs
  | _ => none

/-- The loop over `ALARM_REGISTERS`: each register present in the data marks
the entity available and contributes its records in register order. -/
def alarmCollect : List String → List (String × Val) → Bool → List Alarm →
    Option (Bool × List Alarm)
  | [], _, available, alarms => some (available, alarms)
  | k :: ks, data, available, alarms =>
    match alookup k data with
    | none => alarmCollect ks data available alarms
    | some v => do
        let xs ← v.asAlarmList
        alarmCollect ks data true (alarms ++ xs)

/-- The record format `f"[{alarm.level}] {alarm.id}: {alarm.name}"`. -/
def format_alarm (alarm : Alarm) : String :=
  "[" ++ toString alarm.level ++ "] " ++ toString alarm.id ++ ": " ++ alarm.name

/-- `HuaweiSolarAlarmSensorEntity._handle_coordinator_update`
(src/sensor.py lines 1002-1024). -/
def alarm_handle_coordinator_update (data : List (String × Val))
    (prev : EntityState) : Option EntityState :=
  if dataTruthy data then do
    let r ← alarmCollect ALARM_REGISTERS data false []
    let value :=
      if r.2.length = 0 then "None"
      else String.intercalate ", " (r.2.map format_alarm)
    some { available := r.1, native_value := some (.str value)
           extra_state_attributes := prev.extra_state_attributes }
  else
    some { available := false, native_value := none
           extra_state_attributes := prev.extra_state_attributes }

/-! ### Forcible charge/discharge summarizer (`HuaweiSolarForcibleChargeEntity`) -/

/-- `HuaweiSolarForcibleChargeEntity.REGISTER_NAMES`. -/
def FORCIBLE_REGISTER_NAMES : List String :=
  [rn.STORAGE_FORCIBLE_CHARGE_DISCHARGE_SETTING_MODE,
   rn.STORAGE_FORCIBLE_CHARGE_DISCHARGE_WRITE,
   rn.STORAGE_FORCIBLE_CHARGE_POWER,
   rn.STORAGE_FORCIBLE_DISCHARGE_POWER,
   rn.STORAGE_FORCED_CHARGING_AND_DISCHARGING_PERIOD,
   rn.STORAGE_FORCIBLE_CHARGE_DISCHARGE_SOC]

/-- The mode/setting decision chain of
`HuaweiSolarForcibleChargeEntity._handle_coordinator_update`
(src/sensor.py lines 1310-1322).  The final branch is guarded by
`assert mode == rv.StorageForcibleChargeDischarge.DISCHARGE`; a mode value
outside the three enum members therefore raises `AssertionError`,
modelled `none`. -/
def renderForcible (mode setting charge_power discharge_power target_soc duration : Val) :
    Option String :=
  if mode.eqInt rv.StorageForcibleChargeDischarge_STOP then
    some "Stopped"
  else if mode.eqInt rv.StorageForcibleChargeDischarge_CHARGE then
    if setting.eqInt rv.StorageForcibleChargeDischargeTargetMode_SOC then
      some ("Charging at " ++ charge_power.pyStr ++ "W until " ++ target_soc.pyStr ++ "%")
    else
      some ("Charging at " ++ charge_power.pyStr ++ "W for " ++ duration.pyStr ++ " minutes")
  else if mode.eqInt rv.StorageForcibleChargeDischarge_DISCHARGE then
    if setting.eqInt rv.StorageForcibleChargeDischargeTargetMode_SOC then
      some ("Discharging at " ++ discharge_power.pyStr ++ "W until " ++ target_soc.pyStr ++ "%")
    else
      some ("Discharging at " ++ discharge_power.pyStr ++ "W for " ++ duration.pyStr ++ " minutes")
  else
    none

/-- `HuaweiSolarForcibleChargeEntity._handle_coordinator_update`
(src/sensor.py lines 1286-1338).  The availability guard is
`set(REGISTER_NAMES) <= self.coordinator.data.keys()`; the attributes expose
the six raw values (mode and setting through `str()`). -/
def forcible_handle_coordinator_update (data : List (String × Val))
    (_prev : EntityState) : Option EntityState :=
  if dataTruthy data ∧ FORCIBLE_REGISTER_NAMES.all (fun k => (alookup k data).isSome) then do
    let mode ← alookup rn.STORAGE_FORCIBLE_CHARGE_DISCHARGE_WRITE data
    let setting ← alookup rn.STORAGE_FORCIBLE_CHARGE_DISCHARGE_SETTING_MODE data
    let charge_power ← alookup rn.STORAGE_FORCIBLE_CHARGE_POWER data
    let discharge_power ← alookup rn.STORAGE_FORCIBLE_DISCHARGE_POWER data
    let target_soc ← alookup rn.STORAGE_FORCIBLE_CHARGE_DISCHARGE_SOC data
    let duration ← alookup rn.STORAGE_FORCED_CHARGING_AND_DISCHARGING_PERIOD data
    let value ← renderForcible mode setting charge_power discharge_power target_soc duration
    some { available := true, native_value := some (.str value)
           extra_state_attributes :=
             [("mode", .str mode.pyStr), ("setting", .str setting.pyStr),
              ("charge_power", charge_power), ("discharge_power", discharge_power),
              ("target_soc", target_soc), ("duration", duration)] }
  else
    some { available := false, native_value := none, extra_state_attributes := [] }

/-! ### Per-optimizer detail sensors (`HuaweiSolarOptimizerSensorEntity`) -/

/-- One optimizer's record in the optimizer coordinator data:
`running_status` plus the other data fields reached through `getattr`. -/
structure OptimizerData where
  running_status : OptimizerRunningStatus
  fields : List (String × Val)
  deriving DecidableEq

/-- `getattr(record, key)`: an unknown attribute name raises
`AttributeError`, modelled `none`. -/
def optimizerGetattr (o : OptimizerData) (key : String) : Option Val :=
  if key = "running_status" then some (Val.optStatus o.running_status)
  else alookup key o.fields

/-- Lookup of `self.optimizer_id` in the optimizer coordinator data dict. -/
def lookupOptimizer (optimizer_id : Nat) : List (Nat × OptimizerData) →
    Option OptimizerData
  | [] => none
  | (i, o) :: rest => if optimizer_id = i then some o else lookupOptimizer optimizer_id rest

/-- `HuaweiSolarOptimizerSensorEntity._handle_coordinator_update`
(src/sensor.py lines 1365-1391): availability requires the optimizer record
to be present and, except for the `running_status` sensor itself, the
optimizer not to be offline — but the value is (re)computed from the record
whenever the record is present, available or not. -/
def optimizer_handle_coordinator_update (optimizer_id : Nat) (key : String)
    (conv : Option (Val → Option Val)) (data : List (Nat × OptimizerData))
    (prev : EntityState) : Option EntityState :=
  let available :=
    match lookupOptimizer optimizer_id data with
    | none => false
    | some o => key == "running_status" || !(o.running_status == .OFFLINE)
  match lookupOptimizer optimizer_id data with
  | some o => do
      let v ← optimizerGetattr o key
      let v ← applyConversion conv v
      some { available := available, native_value := some v
             extra_state_attributes := prev.extra_state_attributes }
  | none =>
      some { available := available, native_value := none
             extra_state_attributes := prev.extra_state_attributes }

/-! ### Spec-side comparison definitions

These definitions follow the wording of the specification (not the source)
and exist only to be compared with the source-derived definitions above. -/

/-- The spec's day order for rendering: days 1 through 7, where day `d` for
`d = 1..6` is bit index `d` and day 7 is bit index 0 (Sunday). -/
def specDayOrder : List (Fin 7) := [1, 2, 3, 4, 5, 6, 0]

/-- The spec's label for a day bit: bit index 0 (Sunday) is labeled "7",
bit indices 1..6 are labeled "1".."6". -/
def specDayLabel (b : Fin 7) : String :=
  if b = 0 then "7" else toString (b : Nat)

/-- The spec's day-mask rendering: concatenate exactly the labels of the set
bits, in day-1-through-day-7 order. -/
def specDaysRender (days : DaysEffective) : String :=
  String.join ((specDayOrder.filter (fun b => days b)).map specDayLabel)

/-- The spec's alarm summary: all records formatted `"[severity] id: name"`,
comma-separated, or the literal string "None" when the combined list is
empty. -/
def specAlarmSummary (records : List Alarm) : String :=
  if records.isEmpty then "None"
  else
    String.intercalate ", "
      (records.map (fun a => "[" ++ toString a.level ++ "] " ++ toString a.id ++ ": " ++ a.name))

/-- The spec's auxiliary labels for an `N`-entry schedule:
"Period 1" .. "Period N", in input order. -/
def specPeriodLabels (n : Nat) : List String :=
  (List.range n).map (fun i => "Period " ++ toString (i + 1))

/-! ### Snapshot builders used in the theorem statements -/

/-- Coordinator data holding exactly the present subset of the three alarm
registers, in register order, followed by unrelated entries `rest`. -/
def mkAlarmData (o₁ o₂ o₃ : Option (List Alarm)) (rest : List (String × Val)) :
    List (String × Val) :=
  (match o₁ with | some xs => [(rn.ALARM_1, Val.alarmList xs)] | none => [])
    ++ (match o₂ with | some xs => [(rn.ALARM_2, Val.alarmList xs)] | none => [])
    ++ (match o₃ with | some xs => [(rn.ALARM_3, Val.alarmList xs)] | none => [])
    ++ rest

/-- Coordinator data holding all six registers of the forcible
charge/discharge summarizer. -/
def mkForcibleData (setting mode charge_power discharge_power duration target_soc : Val) :
    List (String × Val) :=
  [(rn.STORAGE_FORCIBLE_CHARGE_DISCHARGE_SETTING_MODE, setting),
   (rn.STORAGE_FORCIBLE_CHARGE_DISCHARGE_WRITE, mode),
   (rn.STORAGE_FORCIBLE_CHARGE_POWER, charge_power),
   (rn.STORAGE_FORCIBLE_DISCHARGE_POWER, discharge_power),
   (rn.STORAGE_FORCED_CHARGING_AND_DISCHARGING_PERIOD, duration),
   (rn.STORAGE_FORCIBLE_CHARGE_DISCHARGE_SOC, target_soc)]

/-! ## Theorems -/

/-- Unapplied form of `format_alarm`, for rewriting under `List.map`. -/
theorem format_alarm_eq :
    format_alarm = fun a => "[" ++ toString a.level ++ "] " ++ toString a.id ++ ": " ++ a.name := by
  funext a; rfl

/-- The labels of the schedule auxiliary attributes are exactly
"Period 1" .. "Period N" in input order. -/
theorem periodAttributes_map_fst {α : Type} (f : α → String) (l : List α) :
    (periodAttributes f l).map Prod.fst = specPeriodLabels l.length := by
  rw [specPeriodLabels, ← List.enum_map_fst l, List.map_map, periodAttributes, List.map_map]
  rfl

/-- C1: with all six dependent registers present, the forcible
charge/discharge summarizer follows the decision table exactly: mode=stop
renders "Stopped" regardless of the other five inputs; mode=charge renders
"Charging at \x7bcharge_power\x7dW until \x7btarget_soc\x7d%" under the
state-of-charge target mode and "Charging at \x7bcharge_power\x7dW for
\x7bduration\x7d minutes" under the duration target mode; mode=discharge
renders the analogous "Discharging ..." strings from the discharge power. -/
theorem forcible_charge_decision_table (m st cp dp ts du : Int) (prev : EntityState) :
    (m = rv.StorageForcibleChargeDischarge_STOP →
      (forcible_handle_coordinator_update
          (mkForcibleData (.int st) (.int m) (.int cp) (.int dp) (.int du) (.int ts)) prev).map
            (fun s => s.native_value)
        = some (some (.str "Stopped")))
    ∧ (m = rv.StorageForcibleChargeDischarge_CHARGE →
        st = rv.StorageForcibleChargeDischargeTargetMode_SOC →
      (forcible_handle_coordinator_update
          (mkForcibleData (.int st) (.int m) (.int cp) (.int dp) (.int du) (.int ts)) prev).map
            (fun s => s.native_value)
        = some (some (.str ("Charging at " ++ toString cp ++ "W until " ++ toString ts ++ "%"))))
    ∧ (m = rv.StorageForcibleChargeDischarge_CHARGE →
        st = rv.StorageForcibleChargeDischargeTargetMode_TIME →
      (forcible_handle_coordinator_update
          (mkForcibleData (.int st) (.int m) (.int cp) (.int dp) (.int du) (.int ts)) prev).map
            (fun s => s.native_value)
        = some (some (.str ("Charging at " ++ toString cp ++ "W for " ++ toString du ++ " minutes"))))
    ∧ (m = rv.StorageForcibleChargeDischarge_DISCHARGE →
        st = rv.StorageForcibleChargeDischargeTargetMode_SOC →
      (forcible_handle_coordinator_update
          (mkForcibleData (.int st) (.int m) (.int cp) (.int dp) (.int du) (.int ts)) prev).map
            (fun s => s.native_value)
        = some (some (.str ("Discharging at " ++ toString dp ++ "W until " ++ toString ts ++ "%"))))
    ∧ (m = rv.StorageForcibleChargeDischarge_DISCHARGE →
        st = rv.StorageForcibleChargeDischargeTargetMode_TIME →
      (forcible_handle_coordinator_update
          (mkForcibleData (.int st) (.int m) (.int cp) (.int dp) (.int du) (.int ts)) prev).map
            (fun s => s.native_value)
        = some (some (.str ("Discharging at " ++ toString dp ++ "W for " ++ toString du ++ " minutes")))) := by
  refine ⟨fun h => ?_, fun h h₂ => ?_, fun h h₂ => ?_, fun h h₂ => ?_, fun h h₂ => ?_⟩ <;>
    subst_vars <;> rfl

/-- Witness for C1: mode=charge, target mode=state-of-charge,
charge_power=2000, target_soc=80 renders exactly "Charging at 2000W until
80%" (the spec's test vector). -/
theorem forcible_charge_decision_table_witness :
    (forcible_handle_coordinator_update
        (mkForcibleData (.int 1) (.int 1) (.int 2000) (.int 0) (.int 0) (.int 80))
        initEntityState).map (fun s => s.native_value)
      = some (some (.str "Charging at 2000W until 80%")) := by
  have h := (forcible_charge_decision_table 1 1 2000 0 80 0 initEntityState).2.1 rfl rfl
  exact h.trans (by decide)

/-- C2: for every 7-element day-of-week mask, `days_effective_to_str` maps
bit index 0 (Sunday) to label "7" and bit indices 1..6 to labels "1".."6",
concatenating exactly the labels of the set bits in day-1-through-day-7
order; in particular the Sunday-only mask renders "7", the
Monday-and-Wednesday mask renders "13", and the full mask renders
"1234567". -/
theorem day_mask_rendering (days : DaysEffective) :
    days_effective_to_str days = specDaysRender days
    ∧ days_effective_to_str (fun i => i == 0) = "7"
    ∧ days_effective_to_str (fun i => i == 1 || i == 3) = "13"
    ∧ days_effective_to_str (fun _ => true) = "1234567" := by
  refine ⟨?_, by decide, by decide, by decide⟩
  revert days; decide

/-- C3 (code bug, failing input): the TOU price-periods entity, unlike its
sibling schedule entities, does not clear `extra_state_attributes` on the
unavailable branch; after a delivery with no data it is unavailable with
value cleared but still publishes the stale "Period 1" attribute from the
previous delivery. -/
theorem tou_unavailable_retains_stale_attributes :
    tou_handle_coordinator_update []
        { available := true, native_value := some (.int 1)
          extra_state_attributes := [("Period 1", .str "00:00-01:00/0.5")] }
      = some { available := false, native_value := none
               extra_state_attributes := [("Period 1", .str "00:00-01:00/0.5")] } := by
  decide

/-- C4: every schedule-period entity with its register present renders the
entry count as its value and exactly N auxiliary entries labeled
"Period 1".."Period N" in input order (an empty list yields value 0 and an
empty mapping, replacing any previously published entries, since the result
does not depend on the previous state). -/
theorem schedule_period_value_and_labels (lgs : List LG_RESU_TimeOfUsePeriod)
    (hws : List HUAWEI_LUNA2000_TimeOfUsePeriod) (pks : List PeakSettingPeriod)
    (prev₁ prev₂ prev₃ : EntityState) :
    (tou_handle_coordinator_update
        [(rn.STORAGE_TIME_OF_USE_CHARGING_AND_DISCHARGING_PERIODS, .touLG lgs)] prev₁
      = some { available := true, native_value := some (.int lgs.length)
               extra_state_attributes := periodAttributes lg_resu_period_to_text lgs })
    ∧ (tou_handle_coordinator_update
        [(rn.STORAGE_TIME_OF_USE_CHARGING_AND_DISCHARGING_PERIODS, .touHuawei hws)] prev₂
      = some { available := true, native_value := some (.int hws.length)
               extra_state_attributes := periodAttributes huawei_luna2000_period_to_text hws })
    ∧ (capacity_handle_coordinator_update
        [(rn.STORAGE_CAPACITY_CONTROL_PERIODS, .peakList pks)] prev₃
      = some { available := true, native_value := some (.int pks.length)
               extra_state_attributes := periodAttributes peak_setting_period_to_text pks })
    ∧ (∀ {α : Type} (f : α → String) (l : List α),
        (periodAttributes f l).map Prod.fst = specPeriodLabels l.length
        ∧ (periodAttributes f l).length = l.length) := by
  refine ⟨?_, ?_, ?_, fun f l => ⟨periodAttributes_map_fst f l, by simp [periodAttributes]⟩⟩
  · cases lgs <;> rfl
  · cases hws <;> rfl
  · rfl

/-- C5: with at least one of the three alarm registers present, the alarm
aggregator renders the concatenation of the present registers' records
formatted "[severity] id: name" and joined by commas, or the literal string
"None" when the combined record list is empty. -/
theorem alarm_aggregation_rendering (o₁ o₂ o₃ : Option (List Alarm)) (prev : EntityState)
    (h : o₁.isSome ∨ o₂.isSome ∨ o₃.isSome) :
    alarm_handle_coordinator_update (mkAlarmData o₁ o₂ o₃ []) prev
      = some { available := true
               native_value :=
                 some (.str (specAlarmSummary (o₁.getD [] ++ o₂.getD [] ++ o₃.getD [])))
               extra_state_attributes := prev.extra_state_attributes } := by
  rcases o₁ with _ | xs₁ <;> rcases o₂ with _ | xs₂ <;> rcases o₃ with _ | xs₃ <;>
    simp_all [alarm_handle_coordinator_update, mkAlarmData, alarmCollect, alookup, dataTruthy,
      Val.asAlarmList, specAlarmSummary, format_alarm_eq, rn.ALARM_1, rn.ALARM_2, rn.ALARM_3,
      ALARM_REGISTERS, List.isEmpty_iff, List.length_eq_zero]

/-- Witness for C5: the single record (severity=2, id=17, name="GridFault")
renders exactly "[2] 17: GridFault". -/
theorem alarm_aggregation_rendering_witness :
    alarm_handle_coordinator_update
        (mkAlarmData (some [⟨2, 17, "GridFault"⟩]) none none []) initEntityState
      = some { available := true, native_value := some (.str "[2] 17: GridFault")
               extra_state_attributes := [] } := by
  have h := alarm_aggregation_rendering (some [⟨2, 17, "GridFault"⟩]) none none
    initEntityState (Or.inl rfl)
  exact h.trans (by decide)

/-- C6: the alarm aggregator is available iff at least one of its three
alarm registers is present in the snapshot; with a subset present it renders
exactly that subset's records, and with zero of the three present it is
unavailable. -/
theorem alarm_degraded_availability (o₁ o₂ o₃ : Option (List Alarm))
    (rest : List (String × Val)) (prev : EntityState)
    (h₁ : alookup rn.ALARM_1 rest = none) (h₂ : alookup rn.ALARM_2 rest = none)
    (h₃ : alookup rn.ALARM_3 rest = none) :
    ((alarm_handle_coordinator_update (mkAlarmData o₁ o₂ o₃ rest) prev).map
        (fun s => s.available)) = some (o₁.isSome || o₂.isSome || o₃.isSome)
    ∧ ((o₁.isSome ∨ o₂.isSome ∨ o₃.isSome) →
        (alarm_handle_coordinator_update (mkAlarmData o₁ o₂ o₃ rest) prev).map
            (fun s => s.native_value)
          = some (some (.str (specAlarmSummary (o₁.getD [] ++ o₂.getD [] ++ o₃.getD []))))) := by
  rcases o₁ with _ | xs₁ <;> rcases o₂ with _ | xs₂ <;> rcases o₃ with _ | xs₃ <;>
    rcases rest with _ | ⟨r, rs⟩ <;>
    simp_all [alarm_handle_coordinator_update, mkAlarmData, alarmCollect, alookup, dataTruthy,
      Val.asAlarmList, specAlarmSummary, format_alarm_eq, rn.ALARM_1, rn.ALARM_2, rn.ALARM_3,
      ALARM_REGISTERS, List.isEmpty_iff, List.length_eq_zero]

/-- Witness for C6: with two of the three alarm registers present (one of
them empty) and an unrelated register in the snapshot, the aggregator is
available. -/
theorem alarm_degraded_availability_witness :
    ((alarm_handle_coordinator_update
        (mkAlarmData none (some [⟨1, 5, "FanFault"⟩]) (some []) [("input_power", .int 5)])
        initEntityState).map (fun s => s.available)) = some true := by
  have h := (alarm_degraded_availability none (some [⟨1, 5, "FanFault"⟩]) (some [])
      [("input_power", .int 5)] initEntityState (by decide) (by decide) (by decide)).1
  exact h.trans (by decide)

/-- C7: a single-dependency sensor entity is available iff its register is
present in the snapshot (including the empty "no data" snapshot); when
present its published value is the raw value passed through the configured
conversion function, and when absent its published value is cleared to
`None` rather than left stale. -/
theorem sensor_availability_and_value (register_key : String)
    (conv : Option (Val → Option Val)) (data : List (String × Val)) (prev : EntityState) :
    (∀ v w, alookup register_key data = some v → applyConversion conv v = some w →
        sensor_handle_coordinator_update register_key conv data prev
          = some { available := true, native_value := some w
                   extra_state_attributes := prev.extra_state_attributes })
    ∧ (alookup register_key data = none →
        sensor_handle_coordinator_update register_key conv data prev
          = some { available := false, native_value := none
                   extra_state_attributes := prev.extra_state_attributes }) := by
  constructor
  · intro v w hv hw
    have hne : data ≠ [] := by rintro rfl; simp [alookup] at hv
    simp [sensor_handle_coordinator_update, dataTruthy, hv, hw, List.isEmpty_iff, hne]
  · intro hv
    simp [sensor_handle_coordinator_update, dataTruthy, hv]

/-- Witness for C7: a present register with no conversion configured
publishes the raw value and marks the entity available. -/
theorem sensor_availability_and_value_witness :
    sensor_handle_coordinator_update "active_power" none [("active_power", .int 5000)]
        initEntityState
      = some { available := true, native_value := some (.int 5000)
               extra_state_attributes := [] } :=
  (sensor_availability_and_value "active_power" none [("active_power", .int 5000)]
      initEntityState).1 (.int 5000) (.int 5000) (by decide) (by decide)

/-- C8: with all six dependent registers present, an operating-mode value
outside \x7bstop, charge, discharge\x7d makes the forcible charge/discharge
summarizer fail its assertion (an uncaught `AssertionError`, modelled
`none`) rather than silently rendering a string. -/
theorem forcible_invalid_mode_assertion (m st cp dp ts du : Int) (prev : EntityState)
    (h₁ : m ≠ rv.StorageForcibleChargeDischarge_STOP)
    (h₂ : m ≠ rv.StorageForcibleChargeDischarge_CHARGE)
    (h₃ : m ≠ rv.StorageForcibleChargeDischarge_DISCHARGE) :
    forcible_handle_coordinator_update
        (mkForcibleData (.int st) (.int m) (.int cp) (.int dp) (.int du) (.int ts)) prev
      = none := by
  simp only [forcible_handle_coordinator_update, mkForcibleData, alookup, dataTruthy,
    renderForcible, Val.eqInt, FORCIBLE_REGISTER_NAMES,
    rn.STORAGE_FORCIBLE_CHARGE_DISCHARGE_SETTING_MODE,
    rn.STORAGE_FORCIBLE_CHARGE_DISCHARGE_WRITE, rn.STORAGE_FORCIBLE_CHARGE_POWER,
    rn.STORAGE_FORCIBLE_DISCHARGE_POWER, rn.STORAGE_FORCED_CHARGING_AND_DISCHARGING_PERIOD,
    rn.STORAGE_FORCIBLE_CHARGE_DISCHARGE_SOC]
  simp [h₁, h₂, h₃]

/-- Witness for C8: mode value 99 with all six registers present raises the
assertion. -/
theorem forcible_invalid_mode_assertion_witness :
    forcible_handle_coordinator_update
        (mkForcibleData (.int 1) (.int 99) (.int 2000) (.int 2000) (.int 30) (.int 80))
        initEntityState = none :=
  forcible_invalid_mode_assertion 99 1 2000 2000 80 30 initEntityState
    (by decide) (by decide) (by decide)

/-- C9 (counterexample): the `state_2#2` entity from
`INVERTER_SENSOR_DESCRIPTIONS` is constructed without failure (its
constructor merely strips the index selector from the key, validating
nothing), and delivering a snapshot whose `state_2` value is a 1-element
list makes the update raise an uncaught `IndexError` at snapshot-delivery
time — the out-of-range index is a runtime failure, not a
construction-time one. -/
theorem index_selector_not_construction_checked :
    (mkSensorEntity
        { key := "state_2#2"
          value_conversion_function := some (indexConversion 2) }).register_key = "state_2"
    ∧ sensor_handle_coordinator_update "state_2" (some (indexConversion 2))
        [("state_2", Val.strList ["No standby"])] initEntityState = none := by
  exact ⟨by decide, by decide⟩

/-- C9 (amended): for an entity whose key carries the index selector `#i`,
construction always succeeds (it only strips the selector from the key),
and a delivery in which the register's list value has at most `i` elements
fails with an uncaught runtime exception (`IndexError` inside the
value-conversion function), not with an availability state. -/
theorem index_selector_runtime_failure (i : Nat) (xs : List String) (prev : EntityState)
    (h : xs.length ≤ i) :
    (mkSensorEntity
        { key := "state_2#2"
          value_conversion_function := some (indexConversion 2) }).register_key = "state_2"
    ∧ sensor_handle_coordinator_update "state_2" (some (indexConversion i))
        [("state_2", Val.strList xs)] prev = none := by
  refine ⟨by decide, ?_⟩
  simp [sensor_handle_coordinator_update, dataTruthy, alookup, applyConversion, indexConversion,
    List.getElem?_eq_none h]

/-- Witness for C9 (amended): index 2 on a 1-element `state_2` value. -/
theorem index_selector_runtime_failure_witness :
    (mkSensorEntity
        { key := "state_2#2"
          value_conversion_function := some (indexConversion 2) }).register_key = "state_2"
    ∧ sensor_handle_coordinator_update "state_2" (some (indexConversion 2))
        [("state_2", Val.strList ["High String Input Voltage"])] initEntityState = none :=
  index_selector_runtime_failure 2 ["High String Input Voltage"] initEntityState (by decide)

/-- C10: a per-optimizer detail sensor is available iff its optimizer's
record is present and (unless it is the running-status sensor itself) the
record's running status is not OFFLINE; yet whenever the record is present
the value is recomputed and published from the record's field even while
the sensor is unavailable, and only a missing record clears the value to
`None`. -/
theorem optimizer_offline_availability (optimizer_id : Nat) (key : String)
    (conv : Option (Val → Option Val)) (data : List (Nat × OptimizerData))
    (prev : EntityState) :
    (∀ o, lookupOptimizer optimizer_id data = some o →
      ∀ v, (optimizerGetattr o key).bind (applyConversion conv) = some v →
        optimizer_handle_coordinator_update optimizer_id key conv data prev
          = some { available := key == "running_status" || !(o.running_status == .OFFLINE)
                   native_value := some v
                   extra_state_attributes := prev.extra_state_attributes })
    ∧ (lookupOptimizer optimizer_id data = none →
        optimizer_handle_coordinator_update optimizer_id key conv data prev
          = some { available := false, native_value := none
                   extra_state_attributes := prev.extra_state_attributes }) := by
  constructor
  · intro o ho v hv
    rcases hx : optimizerGetattr o key with _ | v₀
    · rw [hx] at hv; simp at hv
    · rw [hx] at hv; simp at hv
      simp [optimizer_handle_coordinator_update, ho, hx, hv]
  · intro ho
    simp [optimizer_handle_coordinator_update, ho]

/-- Witness for C10: a present-but-offline optimizer leaves its output-power
sensor unavailable while its value is still recomputed and published. -/
theorem optimizer_offline_availability_witness :
    optimizer_handle_coordinator_update 1 "output_power" none
        [(1, { running_status := .OFFLINE, fields := [("output_power", .int 0)] })]
        initEntityState
      = some { available := false, native_value := some (.int 0)
               extra_state_attributes := [] } := by
  have h := (optimizer_offline_availability 1 "output_power" none
      [(1, { running_status := .OFFLINE, fields := [("output_power", .int 0)] })]
      initEntityState).1
      { running_status := .OFFLINE, fields := [("output_power", .int 0)] } (by decide)
      (.int 0) (by decide)
  exact h.trans (by decide)

end HuaweiSolar
